import Mathlib

/-!
Verification development for the UGA nutrition app
(`data_models.py`, `app_enhanced.py`, `groq_agent.py`).

The Python sources are shallowly embedded below: pure functions become Lean
functions over exact rationals (`ℚ`) and integers; Python `int()` (truncation
toward zero) is `py_int`; Python dictionaries whose values can be `None` are
`Option`-typed fields, and an attribute access on `None` (an uncaught
`AttributeError`) is an `Except.error`; the LLM HTTP client is an external
collaborator passed in as a function argument.  String interpolation of
integer values agrees with Python rendering; rendering of non-integral
rationals is `toString ℚ`, which no theorem below depends on.
-/

/-! ### String helpers (Python `str.lower` and the `in` substring test) -/

/-- Python `needle in haystack` on lists of characters. -/
def substr_scan : List Char → List Char → Bool
  | [], needle => needle.isEmpty
  | h :: t, needle => needle.isPrefixOf (h :: t) || substr_scan t needle

/-- Python `needle in haystack` for strings. -/
def str_contains (haystack needle : String) : Bool :=
  substr_scan haystack.toList needle.toList

/-- Python `s.lower()` (ASCII case folding suffices for every string the app
compares): lower-case every character, as `String.toLower` does, stated
structurally over the character list. -/
def str_lower (s : String) : String := ⟨s.data.map Char.toLower⟩

/-- Python `any(word in text for word in words)`. -/
def contains_any (text : String) (words : List String) : Bool :=
  words.any (fun w => str_contains text w)

/-- Python `int(..)` on a rational value: truncation toward zero. -/
def py_int (q : ℚ) : ℤ := if 0 ≤ q then ⌊q⌋ else ⌈q⌉

/-! ### Data model (`data_models.py`) -/

/-- Record `NutritionProfile` (data_models.py lines 50-70): per-serving base values. -/
structure NutritionProfile where
  calories : ℤ
  protein : ℚ
  carbs : ℚ
  fat : ℚ
  fiber : ℚ
  sodium : ℚ
  added_sugar : ℚ
  deriving DecidableEq, Repr

/-- The `MenuItem` dictionary as produced by `MenuItem.to_dict`
(data_models.py lines 95-119). -/
structure MenuItem where
  item_id : String
  name : String
  dining_hall : String
  meal_period : String
  date : String
  nutrition : NutritionProfile
  tags : List String
  allergens : List String
  deriving DecidableEq, Repr

/-- The daily-targets dictionary returned by `calculate_targets`
(data_models.py lines 507-514) and stored in `st.session_state.daily_targets`
(app_enhanced.py lines 435-442). -/
structure DailyTargets where
  calories : ℤ
  protein : ℤ
  carbs : ℤ
  fat : ℤ
  fiber : ℤ
  sodium : ℤ
  deriving DecidableEq, Repr

/-! ### NutritionCalculator (`data_models.py` lines 469-514, duplicated in
`app_enhanced.py` lines 393-445) -/

/-- Conversion `UserProfile.get_weight_kg` (data_models.py line 135): `weight * 0.453592`. -/
def get_weight_kg (weight : ℚ) : ℚ := weight * 0.453592

/-- Conversion `UserProfile.get_height_cm` (data_models.py line 132):
`(ft*12 + in) * 2.54`. -/
def get_height_cm (height_ft height_in : ℤ) : ℚ :=
  ((height_ft * 12 + height_in : ℤ) : ℚ) * 2.54

/-- Mifflin-St Jeor BMR with age hardcoded to 20
(data_models.py lines 473-477). -/
def bmr_of (weight : ℚ) (height_ft height_in : ℤ) : ℚ :=
  10 * get_weight_kg weight + 6.25 * get_height_cm height_ft height_in - 5 * 20 + 5

/-- Activity multiplier table with default 1.55
(data_models.py lines 480-488). -/
def activity_multiplier (activity_level : String) : ℚ :=
  if activity_level = "Sedentary (little exercise)" then 1.2
  else if activity_level = "Light (1-3 days/week)" then 1.375
  else if activity_level = "Moderate (3-5 days/week)" then 1.55
  else if activity_level = "Active (6-7 days/week)" then 1.725
  else if activity_level = "Very Active (athlete/physical job)" then 1.9
  else 1.55

/-- TDEE = BMR × activity multiplier (data_models.py line 488). -/
def tdee_of (weight : ℚ) (height_ft height_in : ℤ) (activity_level : String) : ℚ :=
  bmr_of weight height_ft height_in * activity_multiplier activity_level

/-- Goal adjustment table: (calorie delta, protein-per-pound multiplier),
default `(0, 0.8)` (data_models.py lines 491-500). -/
def goal_config (goal : String) : ℚ × ℚ :=
  if goal = "Build Muscle / Bulk Up" then (300, 1.0)
  else if goal = "Lose Fat / Cut" then (-500, 1.0)
  else if goal = "Maintain Weight" then (0, 0.8)
  else if goal = "Improve Energy" then (0, 0.8)
  else if goal = "General Health" then (0, 0.8)
  else if goal = "Athletic Performance" then (200, 1.0)
  else (0, 0.8)

/-- Function `calculate_targets` (data_models.py lines 469-514; the same arithmetic is
inlined in the goal-setup form handler, app_enhanced.py lines 393-445). -/
def calculate_targets (weight : ℚ) (height_ft height_in : ℤ)
    (activity_level goal : String) : DailyTargets :=
  let tdee := tdee_of weight height_ft height_in activity_level
  let config := goal_config goal
  let target_calories := py_int (tdee + config.1)
  { calories := target_calories
    protein := py_int (weight * config.2)
    carbs := py_int ((target_calories : ℚ) * 0.45 / 4)
    fat := py_int ((target_calories : ℚ) * 0.25 / 9)
    fiber := 30
    sodium := 2300 }

/-- The five activity-level labels offered by the goal-setup form
(app_enhanced.py lines 372-377). -/
def activity_levels : List String :=
  ["Sedentary (little exercise)", "Light (1-3 days/week)",
   "Moderate (3-5 days/week)", "Active (6-7 days/week)",
   "Very Active (athlete/physical job)"]

/-- The six goal labels offered by the goal-setup form
(app_enhanced.py lines 361-365). -/
def goal_names : List String :=
  ["Build Muscle / Bulk Up", "Lose Fat / Cut", "Maintain Weight",
   "Improve Energy", "General Health", "Athletic Performance"]

/-! ### MenuCatalog search (`data_models.py` lines 517-549)

Each filter of `search_menu_items` is guarded by Python truthiness of its
argument (`if query:`, `if tags:`, `if max_calories:` …), so `None`, the empty
string, the empty list, the value `0`, and the UI sentinel `"All"` all skip
the corresponding filter.  The stages below translate the five `if` blocks in
source order. -/

def query_stage (query : Option String) (l : List MenuItem) : List MenuItem :=
  match query with
  | none => l
  | some q =>
    if q = "" then l
    else l.filter (fun item => str_contains (str_lower item.name) (str_lower q))

def hall_stage (dining_hall : Option String) (l : List MenuItem) : List MenuItem :=
  match dining_hall with
  | none => l
  | some h =>
    if h = "" ∨ h = "All" then l
    else l.filter (fun item => item.dining_hall == h)

def meal_stage (meal_period : Option String) (l : List MenuItem) : List MenuItem :=
  match meal_period with
  | none => l
  | some m =>
    if m = "" ∨ m = "All" then l
    else l.filter (fun item => item.meal_period == m)

def tags_stage (tags : Option (List String)) (l : List MenuItem) : List MenuItem :=
  match tags with
  | none => l
  | some ts =>
    if ts.isEmpty then l
    else l.filter (fun item => ts.any (fun t => item.tags.contains t))

def calories_stage (max_calories : Option ℤ) (l : List MenuItem) : List MenuItem :=
  match max_calories with
  | none => l
  | some mc =>
    if mc = 0 then l
    else l.filter (fun item => item.nutrition.calories ≤ mc)

def protein_stage (min_protein : Option ℤ) (l : List MenuItem) : List MenuItem :=
  match min_protein with
  | none => l
  | some mp =>
    if mp = 0 then l
    else l.filter (fun item => (mp : ℚ) ≤ item.nutrition.protein)

/-- Function `search_menu_items(menu_data, query, dining_hall, meal_period, tags,
max_calories, min_protein)` (data_models.py lines 517-549): the five filters
applied in source order to a copy of the input list. -/
def search_menu_items (menu_data : List MenuItem) (query : Option String)
    (dining_hall : Option String) (meal_period : Option String)
    (tags : Option (List String)) (max_calories : Option ℤ)
    (min_protein : Option ℤ) : List MenuItem :=
  protein_stage min_protein
    (calories_stage max_calories
      (tags_stage tags
        (meal_stage meal_period
          (hall_stage dining_hall
            (query_stage query menu_data)))))

/-- The per-item predicate of each stage (identically true when the stage is
skipped by truthiness). -/
def query_pred (query : Option String) (item : MenuItem) : Bool :=
  match query with
  | none => true
  | some q => if q = "" then true
              else str_contains (str_lower item.name) (str_lower q)

def hall_pred (dining_hall : Option String) (item : MenuItem) : Bool :=
  match dining_hall with
  | none => true
  | some h => if h = "" ∨ h = "All" then true else item.dining_hall == h

def meal_pred (meal_period : Option String) (item : MenuItem) : Bool :=
  match meal_period with
  | none => true
  | some m => if m = "" ∨ m = "All" then true else item.meal_period == m

def tags_pred (tags : Option (List String)) (item : MenuItem) : Bool :=
  match tags with
  | none => true
  | some ts => if ts.isEmpty then true
               else ts.any (fun t => item.tags.contains t)

def calories_pred (max_calories : Option ℤ) (item : MenuItem) : Bool :=
  match max_calories with
  | none => true
  | some mc => if mc = 0 then true else item.nutrition.calories ≤ mc

def protein_pred (min_protein : Option ℤ) (item : MenuItem) : Bool :=
  match min_protein with
  | none => true
  | some mp => if mp = 0 then true else (mp : ℚ) ≤ item.nutrition.protein

/-- Conjunction of all effective filter predicates, associated the way the
sequential filters compose. -/
def matches_filters (query : Option String) (dining_hall : Option String)
    (meal_period : Option String) (tags : Option (List String))
    (max_calories : Option ℤ) (min_protein : Option ℤ) (item : MenuItem) : Bool :=
  protein_pred min_protein item &&
    (calories_pred max_calories item &&
      (tags_pred tags item &&
        (meal_pred meal_period item &&
          (hall_pred dining_hall item && query_pred query item))))

/-- Applying a list of per-item predicates one filter at a time (the abstract
form of the stage composition above, used to state order-invariance). -/
def apply_preds (ps : List (MenuItem → Bool)) (l : List MenuItem) : List MenuItem :=
  ps.foldl (fun acc p => acc.filter p) l

/-! ### FoodLog (`app_enhanced.py`)

Log entries are the flat dictionaries appended by the Dining Finder page
(app_enhanced.py lines 567-579); every key is written at creation time, so the
`.get(key, default)` reads in the totals code never fall back. -/

structure LogEntry where
  date : String
  time : String
  name : String
  hall : String
  meal : String
  calories : ℤ
  protein : ℚ
  carbs : ℚ
  fat : ℚ
  servings : ℚ
  deriving DecidableEq, Repr

structure LogTotals where
  calories : ℚ
  protein : ℚ
  carbs : ℚ
  fat : ℚ
  deriving DecidableEq, Repr

/-- Daily totals for a date: filter the log on the date key and sum
`base value × servings` per field (`build_agent_context`, app_enhanced.py
lines 170-177; the Food Log page daily summary, lines 593-599, computes the
same sums). -/
def totals_for (food_log : List LogEntry) (d : String) : LogTotals :=
  let day_log := food_log.filter (fun e => e.date == d)
  { calories := (day_log.map (fun e => (e.calories : ℚ) * e.servings)).sum
    protein := (day_log.map (fun e => e.protein * e.servings)).sum
    carbs := (day_log.map (fun e => e.carbs * e.servings)).sum
    fat := (day_log.map (fun e => e.fat * e.servings)).sum }

/-- Replace the servings field of an entry, keeping every other field. -/
def set_serv (e : LogEntry) (v : ℚ) : LogEntry := { e with servings := v }

def servings_rejected : String :=
  "ValidationError: servings outside the control range 0.5-5.0"

def entry_not_found : String := "ValueError: entry not in list"

/-- The servings editor of the Food Log page (app_enhanced.py lines 626-636):
the `st.number_input` control accepts only values in [0.5, 5.0] (its
`min_value`/`max_value`), so any value outside that range is rejected at the
input boundary with the session state untouched; an accepted value is written
in place at `food_log.index(entry)`, the index of the first entry equal to
the edited one. -/
def set_servings (food_log : List LogEntry) (entry : LogEntry) (new_servings : ℚ) :
    Except String (List LogEntry) :=
  if new_servings < 0.5 ∨ 5 < new_servings then Except.error servings_rejected
  else
    match food_log.findIdx? (fun x => x == entry) with
    | some idx => Except.ok (food_log.set idx (set_serv entry new_servings))
    | none => Except.error entry_not_found

/-! ### AdvisorDispatcher (`groq_agent.py`, `app_enhanced.py`)

The advisor context is the dictionary built by `build_agent_context`
(app_enhanced.py lines 160-179).  Its `targets` and `goals` entries hold
`st.session_state.daily_targets` / `st.session_state.goals`, which are `None`
until onboarding completes, so those fields are `Option`-typed: `none` is the
Python value `None`, and reading an attribute off it raises `AttributeError`
(modeled as `Except.error none_get_error`).  A context dictionary missing the
key entirely behaves like `some` of an empty dictionary because every read
goes through `.get(key, default)`.  The `user_profile` and `today_log`
entries are only serialized into the LLM prompt (an external-collaborator
concern) and are not modeled. -/

structure TargetsDict where
  calories : Option ℤ
  protein : Option ℤ
  carbs : Option ℤ
  fat : Option ℤ
  fiber : Option ℤ
  sodium : Option ℤ
  deriving DecidableEq, Repr

structure GoalsDict where
  type : Option String
  created_at : Option String
  deriving DecidableEq, Repr

structure TotalsDict where
  calories : Option ℚ
  protein : Option ℚ
  carbs : Option ℚ
  fat : Option ℚ
  deriving DecidableEq, Repr

structure AgentContext where
  targets : Option TargetsDict
  goals : Option GoalsDict
  today_totals : TotalsDict
  deriving DecidableEq, Repr

structure AgentResponse where
  message : String
  citation : String
  success : Bool
  deriving DecidableEq, Repr

structure ChatMessage where
  role : String
  content : String
  deriving DecidableEq, Repr

/-- The external LLM collaborator: one chat-completion request from the user
message, the context snapshot and the chat history (request construction —
system prompt, serialized context block, last-10-message trimming — happens
inside the opaque request, spec sections 1 and 6), returning generated text
or an error. -/
def LLMClient : Type := String → AgentContext → List ChatMessage → Except String String

def none_get_error : String :=
  "AttributeError: NoneType object has no attribute get"

/-- A Python `d.get(key, default)` chain on a dictionary-or-`None` value:
`f` encodes the key access with its default; `none` raises. -/
def py_attr_get {β α : Type} (d : Option β) (f : β → α) : Except String α :=
  match d with
  | none => Except.error none_get_error
  | some b => Except.ok (f b)

/-- Python `targets.get` with its Not-set string default, rendered into an f-string. -/
def show_or_not_set (o : Option ℤ) : String :=
  match o with
  | some n => toString n
  | none => "Not set"

/-! #### `NutritionAgent._get_fallback_response` (groq_agent.py lines 209-320) -/

def groq_protein_message (goal_type : String) (target_protein : ℤ)
    (logged remaining : ℚ) : String :=
  "Great question about protein! Based on your goal of **" ++ goal_type ++ "**, \n" ++
  "you should aim for **" ++ toString target_protein ++ "g of protein** daily.\n\n" ++
  "**You\x27ve logged " ++ toString logged ++ "g so far**, which means you need about **" ++
  toString (max 0 remaining) ++ "g more** today.\n\n" ++
  "**Top high-protein options at UGA Dining:**\n" ++
  "- 🍗 Grilled Chicken Breast (45g protein) - Bolton, Lunch\n" ++
  "- 🐟 Grilled Salmon (40g protein) - Bolton, Dinner\n" ++
  "- 🥛 Greek Yogurt Parfait (18g protein) - Bolton, Breakfast\n\n" ++
  "Would you like me to suggest a meal plan to hit your protein target?"

def groq_breakfast_message : String :=
  "Here are great breakfast options at UGA Dining:\n\n" ++
  "**High Protein (Best for Muscle Building):**\n" ++
  "- 🥚 Scrambled Eggs - 180 cal, 14g protein (Bolton)\n" ++
  "- 🥛 Greek Yogurt Parfait - 220 cal, 18g protein (Bolton)\n\n" ++
  "**High Energy (Best for Performance):**\n" ++
  "- 🥣 Oatmeal with Berries - 280 cal, 8g protein, 52g carbs (Snelling)\n\n" ++
  "**Balanced Option:**\n" ++
  "- Eggs + Oatmeal combo gives you 22g protein and sustained energy!\n\n" ++
  "What\x27s your priority for breakfast - protein, energy, or a balance of both?"

def groq_meal_message (goal_type : String) (target_calories target_protein : ℤ) : String :=
  "Let me suggest some meals based on your **" ++ goal_type ++ "** goal:\n\n" ++
  "**For Lunch at Bolton:**\n" ++
  "- Grilled Chicken Breast (280 cal, 45g protein) \n" ++
  "- Add a side of vegetables for fiber\n\n" ++
  "**For Dinner at Bolton:**\n" ++
  "- Grilled Salmon (350 cal, 40g protein) - excellent omega-3s!\n" ++
  "- Beef Stir Fry (420 cal, 32g protein) - good for variety\n\n" ++
  "**Lighter Options at Snelling:**\n" ++
  "- Brown Rice Bowl (420 cal, 12g protein)\n" ++
  "- Veggie Stir Fry (320 cal, 15g protein)\n\n" ++
  "Your daily targets: " ++ toString target_calories ++ " cal | " ++
  toString target_protein ++ "g protein\n\n" ++
  "Would you like a complete meal plan for today?"

def groq_calorie_message (target_calories : ℤ) (consumed remaining : ℚ) : String :=
  "Let\x27s look at your calorie status:\n\n" ++
  "**Today\x27s Progress:**\n" ++
  "- Consumed: " ++ toString consumed ++ " kcal\n" ++
  "- Target: " ++ toString target_calories ++ " kcal\n" ++
  "- Remaining: " ++ toString (max 0 remaining) ++ " kcal\n\n" ++
  (if 0 ≤ remaining ∧ remaining ≤ 500 then "✅ You are on track!" else "") ++ "\n" ++
  (if 500 < remaining then "⚠️ You have plenty of room for a full meal!" else "") ++ "\n" ++
  (if remaining < 0 then "⚠️ You are over your target. Consider a lighter dinner or extra activity!" else "") ++
  "\n\n" ++
  "**Low-calorie, high-protein options if you need to stay under budget:**\n" ++
  "- Grilled Chicken (280 cal) with vegetables\n" ++
  "- Scrambled Eggs (180 cal) for a light meal\n\n" ++
  "How can I help you adjust your remaining meals?"

def groq_generic_message (goal_type cal_str prot_str : String) : String :=
  "I\x27m here to help with your nutrition goals! \n\n" ++
  "**Your Current Setup:**\n" ++
  "- 🎯 Goal: " ++ goal_type ++ "\n" ++
  "- 🔥 Calorie Target: " ++ cal_str ++ " kcal/day\n" ++
  "- 🥩 Protein Target: " ++ prot_str ++ "g/day\n\n" ++
  "**I can help you with:**\n" ++
  "1. 🍽️ **Meal suggestions** from UGA Dining halls\n" ++
  "2. 💪 **Protein optimization** to hit your targets  \n" ++
  "3. 📊 **Progress analysis** based on your food log\n" ++
  "4. 🎯 **Goal adjustments** as you progress\n\n" ++
  "What would you like to focus on?"

/-- Method `NutritionAgent._get_fallback_response(user_message, context)`
(groq_agent.py lines 209-320): keyword dispatch over the lowercased input,
first match wins; branch order and keyword sets exactly as in the source.
`goal_type` is computed before branching, so a context whose `goals` entry is
`None` raises on every input; a `None` `targets` entry raises in every branch
that reads a target. -/
def get_fallback_response (user_message : String) (context : AgentContext) :
    Except String AgentResponse := do
  let user_input_lower := str_lower user_message
  let targets := context.targets
  let goal_type ← py_attr_get context.goals (fun g => g.type.getD "your goals")
  let today_totals := context.today_totals
  if contains_any user_input_lower ["protein", "muscle", "bulk"] then do
    let target_protein ← py_attr_get targets (fun t => t.protein.getD 150)
    let remaining_protein := (target_protein : ℚ) - today_totals.protein.getD 0
    pure { message := groq_protein_message goal_type target_protein
                        (today_totals.protein.getD 0) remaining_protein
           citation := "UGA Dining Services Menu Data", success := true }
  else if contains_any user_input_lower ["breakfast", "morning"] then
    pure { message := groq_breakfast_message
           citation := "UGA Dining Services Menu", success := true }
  else if contains_any user_input_lower ["lunch", "dinner", "meal"] then do
    let target_calories ← py_attr_get targets (fun t => t.calories.getD 2000)
    let target_protein ← py_attr_get targets (fun t => t.protein.getD 150)
    pure { message := groq_meal_message goal_type target_calories target_protein
           citation := "UGA Dining Services Menu", success := true }
  else if contains_any user_input_lower ["calories", "cal", "over", "under"] then do
    let target_calories ← py_attr_get targets (fun t => t.calories.getD 2000)
    let remaining_cal := (target_calories : ℚ) - today_totals.calories.getD 0
    pure { message := groq_calorie_message target_calories
                        (today_totals.calories.getD 0) remaining_cal
           citation := "Calculated from your food log", success := true }
  else do
    let cal_str ← py_attr_get targets (fun t => show_or_not_set t.calories)
    let prot_str ← py_attr_get targets (fun t => show_or_not_set t.protein)
    pure { message := groq_generic_message goal_type cal_str prot_str
           citation := "", success := true }

/-- Method `NutritionAgent.get_response(user_message, context, chat_history)`
(groq_agent.py lines 144-207): fall back immediately when the client is not
configured; otherwise issue one chat-completion request and on ANY failure
(the bare `except Exception`) degrade to `_get_fallback_response`.  The
request construction and transport are the `llm` collaborator. -/
def get_response (available : Bool) (llm : LLMClient) (user_message : String)
    (context : AgentContext) (chat_history : List ChatMessage) :
    Except String AgentResponse :=
  if !available then get_fallback_response user_message context
  else
    match llm user_message context chat_history with
    | Except.ok text =>
      Except.ok { message := text
                  citation := "UGA Dining Services Data & Nutrition Guidelines"
                  success := true }
    | Except.error _ => get_fallback_response user_message context

/-- The fixed denylist of `NutritionAgent.check_for_concerning_content`
(groq_agent.py lines 327-331). -/
def concerning_phrases : List String :=
  ["not eating", "starving", "purge", "binge", "hate my body",
   "too fat", "disgusting", "fast for days", "laxative",
   "make myself throw up", "eating disorder"]

/-- The fixed supportive message returned on a denylist hit
(groq_agent.py lines 336-344). -/
def support_message : String :=
  "I hear that you might be going through a difficult time with food and your body. \n            \n" ++
  "Your wellbeing matters more than any nutrition goal. 💙\n\n" ++
  "**UGA has free, confidential support available:**\n" ++
  "- UGA Counseling & Psychiatric Services (CAPS): (706) 542-2273\n" ++
  "- UGA Health Center Nutrition Services: (706) 542-8690\n\n" ++
  "Would you like me to help you find more resources, or is there something else I can support you with today?"

/-- Method `NutritionAgent.check_for_concerning_content(user_message)`
(groq_agent.py lines 322-346). -/
def check_for_concerning_content (user_message : String) : Option String :=
  if concerning_phrases.any (fun p => str_contains (str_lower user_message) p) then
    some support_message
  else
    none

/-! #### `fallback_response` (app_enhanced.py lines 204-293) -/

def app_protein_message (goal_type : String) (target_protein : ℤ)
    (logged remaining : ℚ) : String :=
  "Based on your **" ++ goal_type ++ "** goal, you should aim for **" ++
  toString target_protein ++ "g protein** daily.\n\n" ++
  "**Today\x27s progress:** " ++ toString logged ++ "g consumed, **" ++
  toString (max 0 remaining) ++ "g remaining**\n\n" ++
  "**High-protein options at UGA Dining:**\n" ++
  "• Grilled Chicken Breast (45g protein) - Bolton, Lunch\n" ++
  "• Grilled Salmon (40g protein) - Bolton, Dinner  \n" ++
  "• Greek Yogurt Parfait (18g protein) - Bolton, Breakfast\n" ++
  "• Grilled Tofu (18g protein) - Snelling, Lunch\n\n" ++
  "Would you like me to suggest a meal plan to hit your target?"

def app_breakfast_message : String :=
  "**Breakfast Options at UGA Dining:**\n\n" ++
  "**🥚 High Protein:**\n" ++
  "• Scrambled Eggs (180 cal, 14g protein) - Bolton\n" ++
  "• Greek Yogurt Parfait (220 cal, 18g protein) - Bolton\n" ++
  "• Veggie Omelet (240 cal, 16g protein) - Snelling\n\n" ++
  "**🌾 High Energy:**\n" ++
  "• Oatmeal with Berries (280 cal, 8g protein, 52g carbs) - Snelling\n" ++
  "• Whole Wheat Toast (120 cal, 4g protein) - Bolton\n\n" ++
  "**💡 Pro tip:** Combine eggs + oatmeal for 22g protein and sustained energy!\n\n" ++
  "What\x27s your priority - protein, energy, or balanced?"

def app_calorie_message (target_calories : ℤ) (consumed remaining : ℚ) : String :=
  let status := if 0 ≤ remaining ∧ remaining ≤ 500 then "on track"
                else if remaining < 0 then "over" else "under"
  "**📊 Your Calorie Status:**\n\n" ++
  "• Consumed: **" ++ toString consumed ++ " kcal**\n" ++
  "• Target: **" ++ toString target_calories ++ " kcal**\n" ++
  "• Remaining: **" ++ toString (max 0 remaining) ++ " kcal**\n\n" ++
  (if status = "on track" then "✅ You are on track!" else "") ++ "\n" ++
  (if status = "over" then "⚠️ You are over budget. Consider lighter options or extra activity." else "") ++ "\n" ++
  (if status = "under" ∧ 500 < remaining then "💡 You have room for a full meal!" else "") ++
  "\n\n" ++
  "**Lower-calorie, high-satiety options:**\n" ++
  "• Grilled Chicken + Roasted Vegetables (400 cal, 49g protein)\n" ++
  "• Caesar Salad (220 cal, 8g protein)\n" ++
  "• Veggie Stir Fry (320 cal, 15g protein)"

def app_generic_message (goal_type cal_str prot_str : String) : String :=
  "I\x27m here to help with your nutrition goals! 🐾\n\n" ++
  "**Your Current Setup:**\n" ++
  "• 🎯 Goal: " ++ goal_type ++ "\n" ++
  "• 🔥 Calories: " ++ cal_str ++ " kcal/day\n" ++
  "• 🥩 Protein: " ++ prot_str ++ "g/day\n\n" ++
  "**I can help you with:**\n" ++
  "1. **Meal suggestions** from UGA Dining halls\n" ++
  "2. **Protein optimization** strategies\n" ++
  "3. **Progress analysis** based on your log\n" ++
  "4. **Dining hall recommendations** for specific goals\n\n" ++
  "Try asking:\n" ++
  "• \"What should I eat for lunch at Bolton?\"\n" ++
  "• \"How can I hit my protein goal?\"\n" ++
  "• \"What are some healthy breakfast options?\"\n"

/-- Function `fallback_response(user_input, context)` (app_enhanced.py lines 204-293):
the app-level keyword engine used when no Groq key is configured.  Branch
order: protein → breakfast → calories → generic, with the keyword sets of the
source.  As in `get_fallback_response`, a `None` `goals` entry raises before
branching and a `None` `targets` entry raises in every branch that reads it
(the Python default for `today_totals` here is a dictionary of zero calories
and protein, which the `Option`-field reads reproduce). -/
def fallback_response (user_input : String) (context : AgentContext) :
    Except String AgentResponse := do
  let user_input_lower := str_lower user_input
  let targets := context.targets
  let goal_type ← py_attr_get context.goals (fun g => g.type.getD "your goals")
  let today_totals := context.today_totals
  if contains_any user_input_lower ["protein", "muscle", "bulk"] then do
    let target_protein ← py_attr_get targets (fun t => t.protein.getD 150)
    let remaining := (target_protein : ℚ) - today_totals.protein.getD 0
    pure { message := app_protein_message goal_type target_protein
                        (today_totals.protein.getD 0) remaining
           citation := "UGA Dining Services Menu", success := true }
  else if contains_any user_input_lower ["breakfast", "morning"] then
    pure { message := app_breakfast_message
           citation := "UGA Dining Services Menu", success := true }
  else if contains_any user_input_lower ["calories", "over", "under", "budget"] then do
    let target_calories ← py_attr_get targets (fun t => t.calories.getD 2000)
    let remaining := (target_calories : ℚ) - today_totals.calories.getD 0
    pure { message := app_calorie_message target_calories
                        (today_totals.calories.getD 0) remaining
           citation := "Calculated from your food log", success := true }
  else do
    let cal_str ← py_attr_get targets (fun t => show_or_not_set t.calories)
    let prot_str ← py_attr_get targets (fun t => show_or_not_set t.protein)
    pure { message := app_generic_message goal_type cal_str prot_str
           citation := "", success := true }

/-- Function `get_agent_response(user_input, context)` (app_enhanced.py lines 182-201):
the dispatcher the chat page calls.  Only when a Groq key is configured AND
the agent reports itself available does the safety pre-filter run; otherwise
the input goes straight to the app-level keyword engine.  `modules_available`
is the import guard `MODULES_AVAILABLE`, `api_key` the session key (Python
truthiness: the empty string means unset), `agent_available` is
`agent.is_available()`. -/
def get_agent_response (modules_available : Bool) (api_key : String)
    (agent_available : Bool) (llm : LLMClient) (user_input : String)
    (context : AgentContext) (chat_history : List ChatMessage) :
    Except String AgentResponse :=
  if modules_available && !(api_key == "") then
    if agent_available then
      match check_for_concerning_content user_input with
      | some concern_response =>
        Except.ok { message := concern_response
                    citation := "UGA Student Support Services", success := true }
      | none => get_response true llm user_input context chat_history
    else fallback_response user_input context
  else fallback_response user_input context

/-! ### Concrete sample values (drawn from the seed data and the app defaults),
used to instantiate the theorems below. -/

def demo_targets : TargetsDict :=
  { calories := some 2975, protein := some 160, carbs := some 334,
    fat := some 82, fiber := some 30, sodium := some 2300 }

def demo_goals : GoalsDict :=
  { type := some "Build Muscle / Bulk Up", created_at := some "2026-10-12 09:00:00" }

/-- A context as `build_agent_context` produces it after onboarding, with an
empty food log for the day. -/
def demo_context : AgentContext :=
  { targets := some demo_targets
    goals := some demo_goals
    today_totals := { calories := some 0, protein := some 0, carbs := some 0, fat := some 0 } }

/-- The context `build_agent_context` produces before onboarding:
`st.session_state.daily_targets` and `.goals` are still `None`. -/
def pre_onboarding_context : AgentContext :=
  { targets := none
    goals := none
    today_totals := { calories := some 0, protein := some 0, carbs := some 0, fat := some 0 } }

/-- An LLM collaborator that answers. -/
def llm_reply : LLMClient := fun _ _ _ => Except.ok "LLM GENERATED TEXT"

/-- An LLM collaborator whose request fails. -/
def llm_down : LLMClient := fun _ _ _ => Except.error "503 service unavailable"

def scrambled_eggs : MenuItem :=
  { item_id := "bolt-001", name := "Scrambled Eggs", dining_hall := "Bolton"
    meal_period := "Breakfast", date := "2026-10-12"
    nutrition := { calories := 180, protein := 14, carbs := 2, fat := 12,
                   fiber := 0, sodium := 350, added_sugar := 0 }
    tags := ["Vegetarian", "Gluten-Free", "High Protein"], allergens := ["Eggs"] }

def yogurt_parfait : MenuItem :=
  { item_id := "bolt-002", name := "Greek Yogurt Parfait", dining_hall := "Bolton"
    meal_period := "Breakfast", date := "2026-10-12"
    nutrition := { calories := 220, protein := 18, carbs := 28, fat := 4,
                   fiber := 2, sodium := 80, added_sugar := 0 }
    tags := ["Vegetarian", "High Protein"], allergens := ["Dairy"] }

def demo_menu : List MenuItem := [scrambled_eggs, yogurt_parfait]

def demo_pred_cal : MenuItem → Bool := fun i => i.nutrition.calories ≤ 200

def demo_pred_prot : MenuItem → Bool := fun i => (10 : ℚ) ≤ i.nutrition.protein

def eggs_entry : LogEntry :=
  { date := "2026-10-12", time := "08:30", name := "Scrambled Eggs", hall := "Bolton"
    meal := "Breakfast", calories := 180, protein := 14, carbs := 2, fat := 12, servings := 1 }

def toast_entry : LogEntry :=
  { date := "2026-10-11", time := "09:00", name := "Whole Wheat Toast", hall := "Bolton"
    meal := "Breakfast", calories := 120, protein := 4, carbs := 22, fat := 2, servings := 1 }

def demo_log : List LogEntry := [eggs_entry, toast_entry]

/-! ## Helper lemmas -/

theorem toList_append (a b : String) : (a ++ b).toList = a.toList ++ b.toList := by
  simp [String.toList, String.data_append]

theorem substr_scan_iff (n : List Char) :
    ∀ l : List Char, substr_scan l n = true ↔ n <:+: l := by
  intro l
  induction l with
  | nil =>
    simp [substr_scan, List.isEmpty_iff]
  | cons h t ih =>
    simp [substr_scan, List.infix_cons_iff, List.isPrefixOf_iff_prefix, ih,
      Bool.or_eq_true]

theorem str_contains_iff (s n : String) :
    str_contains s n = true ↔ n.toList <:+: s.toList := by
  simp [str_contains, substr_scan_iff]

theorem infix_append_right {n t : List Char} (s : List Char) (h : n <:+: t) :
    n <:+: s ++ t :=
  h.trans (List.suffix_append s t).isInfix

theorem str_contains_middle (a n b : String) : str_contains (a ++ n ++ b) n = true := by
  rw [str_contains_iff, toList_append, toList_append]
  exact List.infix_append _ _ _

theorem str_contains_suffix (a n : String) : str_contains (a ++ n) n = true := by
  rw [str_contains_iff, toList_append]
  exact (List.suffix_append _ _).isInfix

theorem filter_of_true (p : MenuItem → Bool) (l : List MenuItem)
    (hp : ∀ a, p a = true) : List.filter p l = l := by
  rw [List.filter_congr (fun a _ => hp a), List.filter_true]

theorem query_stage_eq (q : Option String) (l : List MenuItem) :
    query_stage q l = l.filter (query_pred q) := by
  cases q with
  | none =>
    exact (filter_of_true _ l (fun a => by simp [query_pred])).symm
  | some s =>
    by_cases hs : s = ""
    · simp only [query_stage, if_pos hs]
      exact (filter_of_true _ l (fun a => by simp [query_pred, hs])).symm
    · simp only [query_stage, if_neg hs]
      exact List.filter_congr (fun a _ => by simp [query_pred, hs])

theorem hall_stage_eq (h : Option String) (l : List MenuItem) :
    hall_stage h l = l.filter (hall_pred h) := by
  cases h with
  | none =>
    exact (filter_of_true _ l (fun a => by simp [hall_pred])).symm
  | some s =>
    by_cases hs : s = "" ∨ s = "All"
    · simp only [hall_stage, if_pos hs]
      exact (filter_of_true _ l (fun a => by simp [hall_pred, hs])).symm
    · simp only [hall_stage, if_neg hs]
      exact List.filter_congr (fun a _ => by simp [hall_pred, hs])

theorem meal_stage_eq (m : Option String) (l : List MenuItem) :
    meal_stage m l = l.filter (meal_pred m) := by
  cases m with
  | none =>
    exact (filter_of_true _ l (fun a => by simp [meal_pred])).symm
  | some s =>
    by_cases hs : s = "" ∨ s = "All"
    · simp only [meal_stage, if_pos hs]
      exact (filter_of_true _ l (fun a => by simp [meal_pred, hs])).symm
    · simp only [meal_stage, if_neg hs]
      exact List.filter_congr (fun a _ => by simp [meal_pred, hs])

theorem tags_stage_eq (t : Option (List String)) (l : List MenuItem) :
    tags_stage t l = l.filter (tags_pred t) := by
  cases t with
  | none =>
    exact (filter_of_true _ l (fun a => by simp [tags_pred])).symm
  | some ts =>
    by_cases hs : ts.isEmpty
    · simp only [tags_stage, if_pos hs]
      exact (filter_of_true _ l (fun a => by simp [tags_pred, hs])).symm
    · simp only [tags_stage, if_neg hs]
      exact List.filter_congr (fun a _ => by simp [tags_pred, hs])

theorem calories_stage_eq (mc : Option ℤ) (l : List MenuItem) :
    calories_stage mc l = l.filter (calories_pred mc) := by
  cases mc with
  | none =>
    exact (filter_of_true _ l (fun a => by simp [calories_pred])).symm
  | some n =>
    by_cases hn : n = 0
    · simp only [calories_stage, if_pos hn]
      exact (filter_of_true _ l (fun a => by simp [calories_pred, hn])).symm
    · simp only [calories_stage, if_neg hn]
      exact List.filter_congr (fun a _ => by simp [calories_pred, hn])

theorem protein_stage_eq (mp : Option ℤ) (l : List MenuItem) :
    protein_stage mp l = l.filter (protein_pred mp) := by
  cases mp with
  | none =>
    exact (filter_of_true _ l (fun a => by simp [protein_pred])).symm
  | some n =>
    by_cases hn : n = 0
    · simp only [protein_stage, if_pos hn]
      exact (filter_of_true _ l (fun a => by simp [protein_pred, hn])).symm
    · simp only [protein_stage, if_neg hn]
      exact List.filter_congr (fun a _ => by simp [protein_pred, hn])

theorem search_menu_items_eq_filter (menu : List MenuItem) (q hall meal : Option String)
    (t : Option (List String)) (mc mp : Option ℤ) :
    search_menu_items menu q hall meal t mc mp
      = menu.filter (matches_filters q hall meal t mc mp) := by
  unfold search_menu_items
  rw [query_stage_eq, hall_stage_eq, meal_stage_eq, tags_stage_eq, calories_stage_eq,
    protein_stage_eq]
  simp only [List.filter_filter]
  rfl

theorem apply_preds_eq_filter (ps : List (MenuItem → Bool)) :
    ∀ l : List MenuItem, apply_preds ps l = l.filter (fun i => ps.all (fun p => p i)) := by
  induction ps with
  | nil => intro l; simp [apply_preds]
  | cons p ps ih =>
    intro l
    have h1 : apply_preds (p :: ps) l = apply_preds ps (l.filter p) := rfl
    rw [h1, ih, List.filter_filter]
    apply List.filter_congr
    intro a _
    simp [List.all_cons, Bool.and_comm]

theorem all_eq_of_perm {ps qs : List (MenuItem → Bool)} (h : ps.Perm qs) (x : MenuItem) :
    ps.all (fun p => p x) = qs.all (fun p => p x) := by
  induction h with
  | nil => rfl
  | cons a _ ih => simp [List.all_cons, ih]
  | swap a b l =>
    simp only [List.all_cons]
    rw [← Bool.and_assoc, ← Bool.and_assoc, Bool.and_comm (b x) (a x)]
  | trans _ _ ih1 ih2 => rw [ih1, ih2]

theorem py_int_eq_floor (q : ℚ) (h : 0 ≤ q) : py_int q = ⌊q⌋ := if_pos h

theorem activity_multiplier_bounds (a : String) :
    1.2 ≤ activity_multiplier a ∧ activity_multiplier a ≤ 1.9 := by
  unfold activity_multiplier
  split_ifs <;> norm_num

theorem goal_config_bounds (g : String) :
    -500 ≤ (goal_config g).1 ∧ 0 ≤ (goal_config g).2 := by
  unfold goal_config
  split_ifs <;> norm_num

theorem bmr_lower (w : ℚ) (ft inch : ℤ) (hw : 80 ≤ w) (hf : 4 ≤ ft) (hi : 0 ≤ inch) :
    (1029.8736 : ℚ) ≤ bmr_of w ft inch := by
  unfold bmr_of get_weight_kg get_height_cm
  have hft : (4 : ℚ) ≤ (ft : ℚ) := by exact_mod_cast hf
  have hin : (0 : ℚ) ≤ (inch : ℚ) := by exact_mod_cast hi
  push_cast
  nlinarith

theorem tdee_lower (w : ℚ) (ft inch : ℤ) (a : String)
    (hw : 80 ≤ w) (hf : 4 ≤ ft) (hi : 0 ≤ inch) :
    (1235 : ℚ) ≤ tdee_of w ft inch a := by
  have h1 := bmr_lower w ft inch hw hf hi
  have h2 := (activity_multiplier_bounds a).1
  have h0 : (0 : ℚ) ≤ bmr_of w ft inch := le_trans (by norm_num) h1
  unfold tdee_of
  nlinarith

theorem target_calories_arg_nonneg (w : ℚ) (ft inch : ℤ) (a g : String)
    (hw : 80 ≤ w) (hf : 4 ≤ ft) (hi : 0 ≤ inch) :
    0 ≤ tdee_of w ft inch a + (goal_config g).1 := by
  have h1 := tdee_lower w ft inch a hw hf hi
  have h2 := (goal_config_bounds g).1
  linarith

theorem filter_map_sum_set (f : LogEntry → ℚ) (hf : ∀ e v, f (set_serv e v) = f e)
    (d : String) (v : ℚ) :
    ∀ (log : List LogEntry) (i : ℕ) (h : i < log.length),
      (((log.set i (set_serv (log.get ⟨i, h⟩) v)).filter (fun e => e.date == d)).map
          (fun e => f e * e.servings)).sum
        = ((log.filter (fun e => e.date == d)).map (fun e => f e * e.servings)).sum
          + (if (log.get ⟨i, h⟩).date = d
             then (v - (log.get ⟨i, h⟩).servings) * f (log.get ⟨i, h⟩) else 0) := by
  intro log
  induction log with
  | nil =>
    intro i h
    exact absurd h (Nat.not_lt_zero i)
  | cons x xs ih =>
    intro i h
    cases i with
    | zero =>
      show ((((set_serv x v) :: xs).filter (fun e => e.date == d)).map
          (fun e => f e * e.servings)).sum = _
      by_cases hd : x.date = d
      · have hb : (x.date == d) = true := beq_iff_eq.mpr hd
        have hb2 : ((set_serv x v).date == d) = true := beq_iff_eq.mpr hd
        simp only [List.filter_cons, hb2, hb, if_true, List.map_cons, List.sum_cons,
          List.get, if_pos hd]
        have hs : (set_serv x v).servings = v := rfl
        rw [hf x v, hs]
        ring
      · have hb : (x.date == d) = false := by
          simpa using hd
        have hb2 : ((set_serv x v).date == d) = false := by
          simpa [set_serv] using hd
        simp only [List.filter_cons, hb2, hb, Bool.false_eq_true, if_false, List.get,
          if_neg hd, add_zero]
    | succ j =>
      have hj : j < xs.length := Nat.lt_of_succ_lt_succ h
      show (((x :: xs.set j (set_serv (xs.get ⟨j, hj⟩) v)).filter (fun e => e.date == d)).map
          (fun e => f e * e.servings)).sum = _
      by_cases hd : x.date = d
      · have hb : (x.date == d) = true := beq_iff_eq.mpr hd
        simp only [List.filter_cons, hb, if_true, List.map_cons, List.sum_cons, List.get]
        rw [ih j hj]
        ring
      · have hb : (x.date == d) = false := by simpa using hd
        simp only [List.filter_cons, hb, Bool.false_eq_true, if_false, List.get]
        exact ih j hj

theorem py_attr_get_some {β α : Type} (b : β) (f : β → α) :
    py_attr_get (some b) f = Except.ok (f b) := rfl

theorem py_attr_get_none {β α : Type} (f : β → α) :
    py_attr_get (none : Option β) f = Except.error none_get_error := rfl

theorem except_bind_ok {α β : Type} (x : α) (k : α → Except String β) :
    (Except.ok x >>= k) = k x := rfl

theorem except_pure_eq_ok {α : Type} (x : α) : (pure x : Except String α) = Except.ok x := rfl

/-- Total dispatch equation for the app-level keyword engine on a context
whose `goals` and `targets` entries are set (the post-onboarding shape). -/
theorem fallback_response_eq (msg : String) (gd : GoalsDict) (td : TargetsDict)
    (tt : TotalsDict) :
    fallback_response msg { targets := some td, goals := some gd, today_totals := tt }
      = Except.ok (
        if contains_any (str_lower msg) ["protein", "muscle", "bulk"] then
          { message := app_protein_message (gd.type.getD "your goals") (td.protein.getD 150)
              (tt.protein.getD 0) ((td.protein.getD 150 : ℚ) - tt.protein.getD 0)
            citation := "UGA Dining Services Menu", success := true }
        else if contains_any (str_lower msg) ["breakfast", "morning"] then
          { message := app_breakfast_message
            citation := "UGA Dining Services Menu", success := true }
        else if contains_any (str_lower msg) ["calories", "over", "under", "budget"] then
          { message := app_calorie_message (td.calories.getD 2000) (tt.calories.getD 0)
              ((td.calories.getD 2000 : ℚ) - tt.calories.getD 0)
            citation := "Calculated from your food log", success := true }
        else
          { message := app_generic_message (gd.type.getD "your goals")
              (show_or_not_set td.calories) (show_or_not_set td.protein)
            citation := "", success := true }) := by
  unfold fallback_response
  dsimp only
  simp only [py_attr_get_some, except_bind_ok, except_pure_eq_ok]
  split
  · rfl
  · split
    · rfl
    · split
      · rfl
      · rfl

/-- Total dispatch equation for the agent-internal keyword engine
(`_get_fallback_response`) on a context whose `goals` and `targets` entries
are set: note the extra {lunch, dinner, meal} branch and the calorie keyword
set {calories, cal, over, under}. -/
theorem get_fallback_response_eq (msg : String) (gd : GoalsDict) (td : TargetsDict)
    (tt : TotalsDict) :
    get_fallback_response msg { targets := some td, goals := some gd, today_totals := tt }
      = Except.ok (
        if contains_any (str_lower msg) ["protein", "muscle", "bulk"] then
          { message := groq_protein_message (gd.type.getD "your goals") (td.protein.getD 150)
              (tt.protein.getD 0) ((td.protein.getD 150 : ℚ) - tt.protein.getD 0)
            citation := "UGA Dining Services Menu Data", success := true }
        else if contains_any (str_lower msg) ["breakfast", "morning"] then
          { message := groq_breakfast_message
            citation := "UGA Dining Services Menu", success := true }
        else if contains_any (str_lower msg) ["lunch", "dinner", "meal"] then
          { message := groq_meal_message (gd.type.getD "your goals") (td.calories.getD 2000)
              (td.protein.getD 150)
            citation := "UGA Dining Services Menu", success := true }
        else if contains_any (str_lower msg) ["calories", "cal", "over", "under"] then
          { message := groq_calorie_message (td.calories.getD 2000) (tt.calories.getD 0)
              ((td.calories.getD 2000 : ℚ) - tt.calories.getD 0)
            citation := "Calculated from your food log", success := true }
        else
          { message := groq_generic_message (gd.type.getD "your goals")
              (show_or_not_set td.calories) (show_or_not_set td.protein)
            citation := "", success := true }) := by
  unfold get_fallback_response
  dsimp only
  simp only [py_attr_get_some, except_bind_ok, except_pure_eq_ok]
  split
  · rfl
  · split
    · rfl
    · split
      · rfl
      · split
        · rfl
        · rfl

theorem py_int_eq_of (q : ℚ) (z : ℤ) (hz : 0 ≤ q) (h1 : (z : ℚ) ≤ q)
    (h2 : q < z + 1) : py_int q = z := by
  rw [py_int_eq_floor q hz]
  exact Int.floor_eq_iff.mpr ⟨h1, h2⟩

theorem bmr_example_eq : bmr_of 160 5 9 = 1726.1222 := by
  norm_num [bmr_of, get_weight_kg, get_height_cm]

theorem tdee_example_eq : tdee_of 160 5 9 "Moderate (3-5 days/week)" = 2675.48941 := by
  have hm : activity_multiplier "Moderate (3-5 days/week)" = 1.55 := rfl
  rw [tdee_of, bmr_example_eq, hm]
  norm_num

theorem calculate_targets_example_eq :
    calculate_targets 160 5 9 "Moderate (3-5 days/week)" "Build Muscle / Bulk Up"
      = { calories := 2975, protein := 160, carbs := 334, fat := 82,
          fiber := 30, sodium := 2300 } := by
  have hg : goal_config "Build Muscle / Bulk Up" = (300, 1.0) := rfl
  have hcal : py_int (tdee_of 160 5 9 "Moderate (3-5 days/week)" + 300) = 2975 := by
    rw [tdee_example_eq]
    exact py_int_eq_of _ 2975 (by norm_num) (by norm_num) (by norm_num)
  unfold calculate_targets
  rw [hg]
  dsimp only
  rw [hcal]
  simp only [DailyTargets.mk.injEq]
  refine ⟨trivial, ?_, ?_, ?_, trivial, trivial⟩
  · exact py_int_eq_of _ 160 (by norm_num) (by norm_num) (by norm_num)
  · exact py_int_eq_of _ 334 (by norm_num) (by norm_num) (by norm_num)
  · exact py_int_eq_of _ 82 (by norm_num) (by norm_num) (by norm_num)

/-- C2 (counterexample): at weight 160 lbs, height 5 ft 9 in, Moderate
activity and the bulk goal, the code computes BMR = 1726.1222 (more than 38
above the claimed ≈1687.9), TDEE = 2675.48941 (more than 59 above the claimed
≈2616.2), and target calories 2975, not 2916. -/
theorem calculate_targets_example_counterexample :
    (calculate_targets 160 5 9 "Moderate (3-5 days/week)" "Build Muscle / Bulk Up").calories
        = 2916 + 59 ∧
    1687.9 + 38 < bmr_of 160 5 9 ∧
    2616.2 + 59 < tdee_of 160 5 9 "Moderate (3-5 days/week)" := by
  refine ⟨?_, ?_, ?_⟩
  · rw [calculate_targets_example_eq]
    exact rfl
  · rw [bmr_example_eq]; norm_num
  · rw [tdee_example_eq]; norm_num

/-- C2 (amended): with exact rational arithmetic on the coded constants, the
example input weight=160 lbs, height 5 ft 9 in, activity "Moderate
(3-5 days/week)", goal "Build Muscle / Bulk Up" yields BMR = 1726.1222,
TDEE = 2675.48941, target_calories = 2975 and target_protein = 160
(carbs 334, fat 82, fiber 30, sodium 2300). -/
theorem calculate_targets_example_values :
    bmr_of 160 5 9 = 1726.1222 ∧
    tdee_of 160 5 9 "Moderate (3-5 days/week)" = 2675.48941 ∧
    calculate_targets 160 5 9 "Moderate (3-5 days/week)" "Build Muscle / Bulk Up"
      = { calories := 2975, protein := 160, carbs := 334, fat := 82,
          fiber := 30, sodium := 2300 } :=
  ⟨bmr_example_eq, tdee_example_eq, calculate_targets_example_eq⟩

/-- C3: on the form-validated input ranges (weight 80-400 lbs, height 4-7 ft
and 0-11 in) and the five activity levels and six goals, the target
computation satisfies exactly target_calories = ⌊TDEE + Δcalories⌋,
target_protein = ⌊weight × protein multiplier⌋,
target_carbs = ⌊target_calories × 0.45 / 4⌋,
target_fat = ⌊target_calories × 0.25 / 9⌋, fiber = 30 and sodium = 2300
(the function is deterministic and pure by construction: it is a Lean
function of exactly these five inputs). -/
theorem calculate_targets_characterization (w : ℚ) (ft inch : ℤ) (a g : String)
    (hw1 : 80 ≤ w) (hw2 : w ≤ 400) (hf1 : 4 ≤ ft) (hf2 : ft ≤ 7)
    (hi1 : 0 ≤ inch) (hi2 : inch ≤ 11)
    (ha : a ∈ activity_levels) (hg : g ∈ goal_names) :
    (calculate_targets w ft inch a g).calories
        = ⌊tdee_of w ft inch a + (goal_config g).1⌋ ∧
    (calculate_targets w ft inch a g).protein = ⌊w * (goal_config g).2⌋ ∧
    (calculate_targets w ft inch a g).carbs
        = ⌊((calculate_targets w ft inch a g).calories : ℚ) * 0.45 / 4⌋ ∧
    (calculate_targets w ft inch a g).fat
        = ⌊((calculate_targets w ft inch a g).calories : ℚ) * 0.25 / 9⌋ ∧
    (calculate_targets w ft inch a g).fiber = 30 ∧
    (calculate_targets w ft inch a g).sodium = 2300 := by
  have hpos : 0 ≤ tdee_of w ft inch a + (goal_config g).1 :=
    target_calories_arg_nonneg w ft inch a g hw1 hf1 hi1
  have hcal : (calculate_targets w ft inch a g).calories
      = ⌊tdee_of w ft inch a + (goal_config g).1⌋ := py_int_eq_floor _ hpos
  have hcalnn : (0 : ℤ) ≤ (calculate_targets w ft inch a g).calories := by
    rw [hcal]
    exact Int.floor_nonneg.mpr hpos
  have hcalq : (0 : ℚ) ≤ ((calculate_targets w ft inch a g).calories : ℚ) := by
    exact_mod_cast hcalnn
  refine ⟨hcal, ?_, ?_, ?_, rfl, rfl⟩
  · have hwpos : (0 : ℚ) ≤ w := by linarith
    exact py_int_eq_floor _ (mul_nonneg hwpos (goal_config_bounds g).2)
  · exact py_int_eq_floor _
      (div_nonneg (mul_nonneg hcalq (by norm_num)) (by norm_num))
  · exact py_int_eq_floor _
      (div_nonneg (mul_nonneg hcalq (by norm_num)) (by norm_num))

/-- C3 (witness): the characterization applied at the concrete example
input. -/
theorem calculate_targets_characterization_witness :
    (calculate_targets 160 5 9 "Moderate (3-5 days/week)" "Build Muscle / Bulk Up").carbs
        = ⌊((calculate_targets 160 5 9 "Moderate (3-5 days/week)"
              "Build Muscle / Bulk Up").calories : ℚ) * 0.45 / 4⌋ ∧
    (calculate_targets 160 5 9 "Moderate (3-5 days/week)" "Build Muscle / Bulk Up").fat
        = ⌊((calculate_targets 160 5 9 "Moderate (3-5 days/week)"
              "Build Muscle / Bulk Up").calories : ℚ) * 0.25 / 9⌋ :=
  ⟨(calculate_targets_characterization 160 5 9 "Moderate (3-5 days/week)"
      "Build Muscle / Bulk Up" (by norm_num) (by norm_num) (by norm_num) (by norm_num)
      (by norm_num) (by norm_num) (by simp [activity_levels]) (by simp [goal_names])).2.2.1,
   (calculate_targets_characterization 160 5 9 "Moderate (3-5 days/week)"
      "Build Muscle / Bulk Up" (by norm_num) (by norm_num) (by norm_num) (by norm_num)
      (by norm_num) (by norm_num) (by simp [activity_levels]) (by simp [goal_names])).2.2.2.1⟩

/-- C7 (counterexample): `max_calories = 0` is a provided threshold the claim
says must act as the predicate `calories ≤ 0`, yet the search returns an item
with 180 calories unfiltered (Python truthiness skips a zero threshold). -/
theorem search_menu_items_counterexample :
    search_menu_items [scrambled_eggs] none none none none (some 0) none
        = [scrambled_eggs] ∧
    0 < scrambled_eggs.nutrition.calories := by
  exact ⟨rfl, by norm_num [scrambled_eggs]⟩

/-- C7 (amended): the menu search equals one pass of `List.filter` with the
conjunction of the effective predicates — where a provided filter is
effective only when truthy and not the "All" sentinel (non-empty query,
hall/meal other than "" and "All", non-empty tag list, non-zero thresholds);
it is therefore order-preserving (a sublist of the input), is the identity
when no filter is provided, and applying individual predicate filters in any
order yields the same result. -/
theorem search_menu_items_spec (menu : List MenuItem) (q hall meal : Option String)
    (t : Option (List String)) (mc mp : Option ℤ) :
    search_menu_items menu q hall meal t mc mp
        = menu.filter (matches_filters q hall meal t mc mp) ∧
    search_menu_items menu none none none none none none = menu ∧
    (search_menu_items menu q hall meal t mc mp).Sublist menu ∧
    (∀ (ps qs : List (MenuItem → Bool)) (l : List MenuItem),
      ps.Perm qs → apply_preds ps l = apply_preds qs l) := by
  refine ⟨search_menu_items_eq_filter menu q hall meal t mc mp, rfl, ?_, ?_⟩
  · rw [search_menu_items_eq_filter]
    exact List.filter_sublist menu
  · intro ps qs l hperm
    rw [apply_preds_eq_filter, apply_preds_eq_filter]
    exact List.filter_congr (fun a _ => all_eq_of_perm hperm a)

/-- C7 (witness): applying the calorie predicate then the protein predicate
to the sample menu equals applying them in the opposite order. -/
theorem search_menu_items_spec_witness :
    apply_preds [demo_pred_cal, demo_pred_prot] demo_menu
      = apply_preds [demo_pred_prot, demo_pred_cal] demo_menu :=
  (search_menu_items_spec demo_menu none none none none none none).2.2.2
    [demo_pred_cal, demo_pred_prot] [demo_pred_prot, demo_pred_cal] demo_menu
    (List.Perm.swap demo_pred_prot demo_pred_cal [])

/-- C9: a zero `max_calories` (and likewise a zero `min_protein`) is falsy in
Python, so the search behaves exactly as if that filter were absent. -/
theorem search_menu_items_zero_thresholds (menu : List MenuItem)
    (q hall meal : Option String) (t : Option (List String)) (mc mp : Option ℤ) :
    search_menu_items menu q hall meal t (some 0) mp
        = search_menu_items menu q hall meal t none mp ∧
    search_menu_items menu q hall meal t mc (some 0)
        = search_menu_items menu q hall meal t mc none := by
  constructor
  · unfold search_menu_items
    rfl
  · unfold search_menu_items
    rfl

/-- Record form of the servings-update delta for the daily totals. -/
theorem totals_for_set_eq (log : List LogEntry) (d : String) (i : ℕ)
    (h : i < log.length) (v : ℚ) :
    totals_for (log.set i (set_serv (log.get ⟨i, h⟩) v)) d
      = { calories := (totals_for log d).calories
            + (if (log.get ⟨i, h⟩).date = d
               then (v - (log.get ⟨i, h⟩).servings) * ((log.get ⟨i, h⟩).calories : ℚ) else 0)
          protein := (totals_for log d).protein
            + (if (log.get ⟨i, h⟩).date = d
               then (v - (log.get ⟨i, h⟩).servings) * (log.get ⟨i, h⟩).protein else 0)
          carbs := (totals_for log d).carbs
            + (if (log.get ⟨i, h⟩).date = d
               then (v - (log.get ⟨i, h⟩).servings) * (log.get ⟨i, h⟩).carbs else 0)
          fat := (totals_for log d).fat
            + (if (log.get ⟨i, h⟩).date = d
               then (v - (log.get ⟨i, h⟩).servings) * (log.get ⟨i, h⟩).fat else 0) } := by
  have hc := filter_map_sum_set (fun e => (e.calories : ℚ)) (fun e w => rfl) d v log i h
  have hp := filter_map_sum_set (fun e => e.protein) (fun e w => rfl) d v log i h
  have hcb := filter_map_sum_set (fun e => e.carbs) (fun e w => rfl) d v log i h
  have hft := filter_map_sum_set (fun e => e.fat) (fun e w => rfl) d v log i h
  unfold totals_for
  dsimp only
  simp only [LogTotals.mk.injEq]
  exact ⟨hc, hp, hcb, hft⟩

/-- C6: the daily totals for a date are the sums of base value × servings over
the entries whose date key matches; with no matching entry every total is
zero; editing the servings of one entry from old to new shifts each total by
exactly (new − old) × the base value of that entry, and totals for any other date
are unchanged. -/
theorem totals_for_spec (log : List LogEntry) (d : String) :
    ((∀ e ∈ log, e.date ≠ d) → totals_for log d = ⟨0, 0, 0, 0⟩) ∧
    (totals_for log d).calories
        = ((log.filter (fun e => e.date == d)).map
            (fun e => (e.calories : ℚ) * e.servings)).sum ∧
    (totals_for log d).protein
        = ((log.filter (fun e => e.date == d)).map
            (fun e => e.protein * e.servings)).sum ∧
    (∀ (i : ℕ) (h : i < log.length) (v : ℚ),
      totals_for (log.set i (set_serv (log.get ⟨i, h⟩) v)) d
        = { calories := (totals_for log d).calories
              + (if (log.get ⟨i, h⟩).date = d
                 then (v - (log.get ⟨i, h⟩).servings) * ((log.get ⟨i, h⟩).calories : ℚ)
                 else 0)
            protein := (totals_for log d).protein
              + (if (log.get ⟨i, h⟩).date = d
                 then (v - (log.get ⟨i, h⟩).servings) * (log.get ⟨i, h⟩).protein else 0)
            carbs := (totals_for log d).carbs
              + (if (log.get ⟨i, h⟩).date = d
                 then (v - (log.get ⟨i, h⟩).servings) * (log.get ⟨i, h⟩).carbs else 0)
            fat := (totals_for log d).fat
              + (if (log.get ⟨i, h⟩).date = d
                 then (v - (log.get ⟨i, h⟩).servings) * (log.get ⟨i, h⟩).fat else 0) }) ∧
    (∀ (i : ℕ) (h : i < log.length) (v : ℚ),
      (log.get ⟨i, h⟩).date ≠ d →
        totals_for (log.set i (set_serv (log.get ⟨i, h⟩) v)) d = totals_for log d) := by
  refine ⟨?_, rfl, rfl, fun i h v => totals_for_set_eq log d i h v, ?_⟩
  · intro hall
    have hnil : log.filter (fun e => e.date == d) = [] := by
      apply List.filter_eq_nil_iff.mpr
      intro a ha
      simp only [beq_iff_eq]
      exact hall a ha
    unfold totals_for
    rw [hnil]
    rfl
  · intro i h v hne
    rw [totals_for_set_eq log d i h v]
    simp only [if_neg hne, add_zero]

/-- C6 (witness): on the sample log, a date with no entries totals to zero,
and editing the servings of the 2026-10-12 entry does not change the totals
of 2026-10-11. -/
theorem totals_for_spec_witness :
    totals_for demo_log "2030-01-01" = ⟨0, 0, 0, 0⟩ ∧
    totals_for (demo_log.set 0 (set_serv eggs_entry 2)) "2026-10-11"
      = totals_for demo_log "2026-10-11" := by
  constructor
  · apply (totals_for_spec demo_log "2030-01-01").1
    intro e he
    simp only [demo_log, List.mem_cons, List.not_mem_nil, or_false] at he
    rcases he with h | h <;> subst h <;> simp [eggs_entry, toast_entry]
  · exact (totals_for_spec demo_log "2026-10-11").2.2.2.2 0 (by simp [demo_log]) 2
      (by simp [demo_log, eggs_entry])

/-- C8 (counterexample): a servings value of 6 is at or above 0.5, which the
claim says must be accepted and written in place, but the upper bound 5.0 of
the form control rejects it. -/
theorem set_servings_counterexample :
    set_servings demo_log eggs_entry 6 = Except.error servings_rejected ∧
    (0.5 : ℚ) ≤ 6 := by
  constructor
  · unfold set_servings
    rw [if_pos (Or.inr (by norm_num))]
  · norm_num

/-- C8 (amended): a servings value below 0.5 — or above 5.0, the form
upper bound of the form control - is rejected with the log untouched; a value
in [0.5, 5.0] rewrites exactly one entry, the first entry equal to the edited
one, and changes nothing but its servings field. -/
theorem set_servings_spec (log : List LogEntry) (entry : LogEntry) (v : ℚ) :
    (v < 0.5 ∨ 5 < v → set_servings log entry v = Except.error servings_rejected) ∧
    (∀ i : ℕ, 0.5 ≤ v → v ≤ 5 → log.findIdx? (fun x => x == entry) = some i →
      set_servings log entry v = Except.ok (log.set i (set_serv entry v)) ∧
      (log.set i (set_serv entry v)).length = log.length ∧
      (∀ j : ℕ, j ≠ i → (log.set i (set_serv entry v))[j]? = log[j]?) ∧
      (i < log.length → (log.set i (set_serv entry v))[i]? = some (set_serv entry v))) ∧
    ((set_serv entry v).servings = v ∧ (set_serv entry v).date = entry.date ∧
      (set_serv entry v).time = entry.time ∧ (set_serv entry v).name = entry.name ∧
      (set_serv entry v).hall = entry.hall ∧ (set_serv entry v).meal = entry.meal ∧
      (set_serv entry v).calories = entry.calories ∧
      (set_serv entry v).protein = entry.protein ∧
      (set_serv entry v).carbs = entry.carbs ∧ (set_serv entry v).fat = entry.fat) := by
  refine ⟨?_, ?_, rfl, rfl, rfl, rfl, rfl, rfl, rfl, rfl, rfl, rfl⟩
  · intro hv
    unfold set_servings
    rw [if_pos hv]
  · intro i h1 h2 hidx
    have hne : ¬(v < 0.5 ∨ 5 < v) := by
      push_neg
      exact ⟨h1, h2⟩
    refine ⟨?_, List.length_set log i _, ?_, ?_⟩
    · unfold set_servings
      rw [if_neg hne, hidx]
    · intro j hj
      exact List.getElem?_set_ne (Ne.symm hj)
    · intro hi
      exact List.getElem?_set_self hi

/-- C8 (witness): editing the first sample entry to 2 servings succeeds and
rewrites exactly index 0. -/
theorem set_servings_spec_witness :
    set_servings demo_log eggs_entry 2
      = Except.ok (demo_log.set 0 (set_serv eggs_entry 2)) :=
  ((set_servings_spec demo_log eggs_entry 2).2.1 0 (by norm_num) (by norm_num)
    (by decide)).1

/-- C1 (counterexample): with no credential configured, a denylisted message
("purge") is not intercepted by the safety pre-filter: the dispatcher sends
it to the app-level keyword fallback, which answers with the generic template
— empty citation, message different from the support message. -/
theorem safety_prefilter_counterexample :
    (get_agent_response true "" true llm_reply "purge" demo_context []).map
        (fun r => r.citation) = Except.ok "" ∧
    ("" == "UGA Student Support Services") = false ∧
    (get_agent_response true "" true llm_reply "purge" demo_context []).map
        (fun r => r.message == support_message) = Except.ok false := by
  refine ⟨?_, by decide, ?_⟩
  · rfl
  · rfl

/-- C1 (amended): when a credential is configured AND the agent is available,
every message containing a denylist phrase short-circuits to the fixed
supportive message with citation "UGA Student Support Services", regardless
of the rest of the message and independently of the LLM collaborator (neither
the LLM nor the keyword fallback is consulted); without a credential the
pre-filter is skipped and the message goes to the keyword fallback. -/
theorem safety_prefilter_spec (api_key : String) (llm llm2 : LLMClient)
    (msg : String) (ctx : AgentContext) (hist : List ChatMessage)
    (hkey : api_key ≠ "")
    (hconcern : concerning_phrases.any (fun p => str_contains (str_lower msg) p) = true) :
    get_agent_response true api_key true llm msg ctx hist
      = Except.ok { message := support_message
                    citation := "UGA Student Support Services", success := true } ∧
    get_agent_response true api_key true llm msg ctx hist
      = get_agent_response true api_key true llm2 msg ctx hist := by
  have hk : (api_key == "") = false := beq_eq_false_iff_ne.mpr hkey
  have hc : check_for_concerning_content msg = some support_message := by
    unfold check_for_concerning_content
    rw [if_pos hconcern]
  constructor <;> simp [get_agent_response, hk, hc]

/-- C1 (witness): the pre-filter fires on "purge" when a key is set. -/
theorem safety_prefilter_spec_witness :
    get_agent_response true "gsk-demo-key" true llm_reply "purge" demo_context []
      = Except.ok { message := support_message
                    citation := "UGA Student Support Services", success := true } :=
  (safety_prefilter_spec "gsk-demo-key" llm_reply llm_down "purge" demo_context []
    (by decide) (by decide)).1

/-- C4: the advisor respond operation is NOT total on every context — on the
pre-onboarding context (whose goals entry is Python None) the keyword
fallback raises AttributeError, which escapes `get_response` — while on any
LLM request failure it does degrade to the keyword fallback, with a result
independent of the error value (the raw error never reaches the user). -/
theorem get_response_error_handling :
    get_response false llm_reply "hello" pre_onboarding_context []
        = Except.error none_get_error ∧
    (∀ (msg : String) (ctx : AgentContext) (hist : List ChatMessage) (e : String),
      get_response true (fun _ _ _ => Except.error e) msg ctx hist
        = get_fallback_response msg ctx) := by
  constructor
  · rfl
  · intro msg ctx hist e
    rfl

/-- C5 (counterexample): when the fallback runs because the LLM path failed,
the engine is `_get_fallback_response`, whose calorie keyword set is
{calories, cal, over, under} — "budget" is not in it, so the input "budget"
lands in the generic template (empty citation) instead of the calorie-status
template the claim requires. -/
theorem fallback_keyword_counterexample :
    (get_response true llm_down "budget" demo_context []).map (fun r => r.citation)
        = Except.ok "" ∧
    ("" == "Calculated from your food log") = false := by
  exact ⟨rfl, by decide⟩

/-- C5 (amended): the app-level keyword fallback used when no credential is
configured dispatches exactly as the claim states (protein → breakfast →
calories → generic, first match wins); the agent-internal fallback used when
the LLM path failed has an additional {lunch, dinner, meal} branch after
breakfast, and its calorie keyword set is {calories, cal, over, under}
(without "budget").  In both shapes, with no credential and input "How can I
hit my protein goal?" the response has a non-empty citation and its message
contains the numeric protein target from the context. -/
theorem fallback_keyword_dispatch (msg : String) (gd : GoalsDict) (td : TargetsDict)
    (tt : TotalsDict) :
    fallback_response msg { targets := some td, goals := some gd, today_totals := tt }
      = Except.ok (
        if contains_any (str_lower msg) ["protein", "muscle", "bulk"] then
          { message := app_protein_message (gd.type.getD "your goals") (td.protein.getD 150)
              (tt.protein.getD 0) ((td.protein.getD 150 : ℚ) - tt.protein.getD 0)
            citation := "UGA Dining Services Menu", success := true }
        else if contains_any (str_lower msg) ["breakfast", "morning"] then
          { message := app_breakfast_message
            citation := "UGA Dining Services Menu", success := true }
        else if contains_any (str_lower msg) ["calories", "over", "under", "budget"] then
          { message := app_calorie_message (td.calories.getD 2000) (tt.calories.getD 0)
              ((td.calories.getD 2000 : ℚ) - tt.calories.getD 0)
            citation := "Calculated from your food log", success := true }
        else
          { message := app_generic_message (gd.type.getD "your goals")
              (show_or_not_set td.calories) (show_or_not_set td.protein)
            citation := "", success := true }) ∧
    get_fallback_response msg { targets := some td, goals := some gd, today_totals := tt }
      = Except.ok (
        if contains_any (str_lower msg) ["protein", "muscle", "bulk"] then
          { message := groq_protein_message (gd.type.getD "your goals") (td.protein.getD 150)
              (tt.protein.getD 0) ((td.protein.getD 150 : ℚ) - tt.protein.getD 0)
            citation := "UGA Dining Services Menu Data", success := true }
        else if contains_any (str_lower msg) ["breakfast", "morning"] then
          { message := groq_breakfast_message
            citation := "UGA Dining Services Menu", success := true }
        else if contains_any (str_lower msg) ["lunch", "dinner", "meal"] then
          { message := groq_meal_message (gd.type.getD "your goals") (td.calories.getD 2000)
              (td.protein.getD 150)
            citation := "UGA Dining Services Menu", success := true }
        else if contains_any (str_lower msg) ["calories", "cal", "over", "under"] then
          { message := groq_calorie_message (td.calories.getD 2000) (tt.calories.getD 0)
              ((td.calories.getD 2000 : ℚ) - tt.calories.getD 0)
            citation := "Calculated from your food log", success := true }
        else
          { message := groq_generic_message (gd.type.getD "your goals")
              (show_or_not_set td.calories) (show_or_not_set td.protein)
            citation := "", success := true }) ∧
    (∀ p : ℤ, td.protein = some p →
      (fallback_response "How can I hit my protein goal?"
          { targets := some td, goals := some gd, today_totals := tt }).map
            (fun r => r.citation == "") = Except.ok false ∧
      (fallback_response "How can I hit my protein goal?"
          { targets := some td, goals := some gd, today_totals := tt }).map
            (fun r => str_contains r.message (toString p)) = Except.ok true) := by
  refine ⟨fallback_response_eq msg gd td tt, get_fallback_response_eq msg gd td tt, ?_⟩
  intro p hp
  have hc : contains_any (str_lower "How can I hit my protein goal?")
      ["protein", "muscle", "bulk"] = true := by decide
  have hgd : td.protein.getD 150 = p := by rw [hp]; rfl
  rw [fallback_response_eq "How can I hit my protein goal?" gd td tt, if_pos hc, hgd]
  constructor
  · rfl
  · show Except.ok (str_contains (app_protein_message (gd.type.getD "your goals") p
        (tt.protein.getD 0) ((p : ℚ) - tt.protein.getD 0)) (toString p)) = Except.ok true
    refine congrArg Except.ok ?_
    unfold app_protein_message
    rw [str_contains_iff]
    simp only [toList_append, List.append_assoc]
    repeat
      first
      | exact (List.prefix_append _ _).isInfix
      | apply infix_append_right

/-- C5 (witness): with no credential, "How can I hit my protein goal?" against
the sample context yields a non-empty citation and a message containing the
protein target 160. -/
theorem fallback_keyword_dispatch_witness :
    (fallback_response "How can I hit my protein goal?" demo_context).map
        (fun r => r.citation == "") = Except.ok false ∧
    (fallback_response "How can I hit my protein goal?" demo_context).map
        (fun r => str_contains r.message (toString (160 : ℤ))) = Except.ok true :=
  (fallback_keyword_dispatch "How can I hit my protein goal?" demo_goals demo_targets
    { calories := some 0, protein := some 0, carbs := some 0, fat := some 0 }).2.2 160 rfl

theorem get_fallback_success_map (msg : String) (ctx : AgentContext) :
    (get_fallback_response msg ctx).map (fun r => r.success)
      = (get_fallback_response msg ctx).map (fun _ => true) := by
  obtain ⟨tgs, gls, tt⟩ := ctx
  cases gls with
  | none => rfl
  | some gd =>
    cases tgs with
    | none =>
      unfold get_fallback_response
      dsimp only
      simp only [py_attr_get_some, except_bind_ok]
      split
      · rfl
      · split
        · rfl
        · split
          · rfl
          · split
            · rfl
            · rfl
    | some td =>
      rw [get_fallback_response_eq]
      split
      · rfl
      · split
        · rfl
        · split
          · rfl
          · split
            · rfl
            · rfl

theorem fallback_success_map (msg : String) (ctx : AgentContext) :
    (fallback_response msg ctx).map (fun r => r.success)
      = (fallback_response msg ctx).map (fun _ => true) := by
  obtain ⟨tgs, gls, tt⟩ := ctx
  cases gls with
  | none => rfl
  | some gd =>
    cases tgs with
    | none =>
      unfold fallback_response
      dsimp only
      simp only [py_attr_get_some, except_bind_ok]
      split
      · rfl
      · split
        · rfl
        · split
          · rfl
          · rfl
    | some td =>
      rw [fallback_response_eq]
      split
      · rfl
      · split
        · rfl
        · split
          · rfl
          · rfl

theorem get_response_success_map (avail : Bool) (llm : LLMClient) (msg : String)
    (ctx : AgentContext) (hist : List ChatMessage) :
    (get_response avail llm msg ctx hist).map (fun r => r.success)
      = (get_response avail llm msg ctx hist).map (fun _ => true) := by
  cases avail with
  | false => exact get_fallback_success_map msg ctx
  | true =>
    have hshape : get_response true llm msg ctx hist
        = match llm msg ctx hist with
          | Except.ok text =>
            Except.ok { message := text
                        citation := "UGA Dining Services Data & Nutrition Guidelines"
                        success := true }
          | Except.error _ => get_fallback_response msg ctx := rfl
    rw [hshape]
    cases hres : llm msg ctx hist with
    | ok t => rfl
    | error e => exact get_fallback_success_map msg ctx

theorem get_agent_success_map (modules : Bool) (key : String) (agent_avail : Bool)
    (llm : LLMClient) (msg : String) (ctx : AgentContext) (hist : List ChatMessage) :
    (get_agent_response modules key agent_avail llm msg ctx hist).map (fun r => r.success)
      = (get_agent_response modules key agent_avail llm msg ctx hist).map (fun _ => true) := by
  unfold get_agent_response
  split
  · split
    · cases hc : check_for_concerning_content msg with
      | some c =>
        simp only [hc]
        rfl
      | none =>
        simp only [hc]
        exact get_response_success_map true llm msg ctx hist
    · exact fallback_success_map msg ctx
  · exact fallback_success_map msg ctx

/-- C10: on every return path of the advisor — the LLM response path, every
keyword-fallback template of both engines, the generic templates, and the
safety short-circuit — the success field of the returned record is True, so a
caller can never tell an LLM answer from a degraded fallback answer by
inspecting success. -/
theorem advisor_success_invariant (msg : String) (ctx : AgentContext)
    (avail modules agent_avail : Bool) (key : String) (llm : LLMClient)
    (hist : List ChatMessage) :
    (get_fallback_response msg ctx).map (fun r => r.success)
        = (get_fallback_response msg ctx).map (fun _ => true) ∧
    (fallback_response msg ctx).map (fun r => r.success)
        = (fallback_response msg ctx).map (fun _ => true) ∧
    (get_response avail llm msg ctx hist).map (fun r => r.success)
        = (get_response avail llm msg ctx hist).map (fun _ => true) ∧
    (get_agent_response modules key agent_avail llm msg ctx hist).map (fun r => r.success)
        = (get_agent_response modules key agent_avail llm msg ctx hist).map (fun _ => true) :=
  ⟨get_fallback_success_map msg ctx, fallback_success_map msg ctx,
   get_response_success_map avail llm msg ctx hist,
   get_agent_success_map modules key agent_avail llm msg ctx hist⟩
